import Mathlib

set_option autoImplicit false

/-!
Shallow embedding of the vibetools response-coercion and validation engine.

The repository contains two generations of the same engine:

* `src/llms/llm_wrapper.py` + `src/llms/gemini_wrapper.py` (namespace `VibeCheck`
  below), configured by `src/models/config.py`;
* `src/vibetools/llms/llm_wrapper.py` + `src/vibetools/llms/gemini_wrapper.py`
  + `src/vibetools/_internal/vibe_llm_client.py` (namespace `Vibetools` below).

Python runtime values are modelled by `Py.Val`, target type declarations by
`Py.TypeExpr`, and Python exceptions raised by the embedded code by `Py.Exc`.
Machine floats only ever carry exact small decimal literals in the verified
claims, so they are modelled by rationals.
-/

namespace Py

/-- Kinds of Python exceptions the embedded library code can raise internally. -/
inductive Exc where
  | typeError
  | valueError
  | jsonError
deriving DecidableEq, Repr

/-- The ASCII whitespace characters stripped by Python `str.strip()`. -/
def isPyWs (c : Char) : Bool :=
  c = ' ' || c = '\t' || c = '\n' || c = '\r' || c = Char.ofNat 11 || c = Char.ofNat 12

/-- Strip leading and trailing whitespace from a character list. -/
def stripChars (cs : List Char) : List Char :=
  ((cs.dropWhile isPyWs).reverse.dropWhile isPyWs).reverse

/-- Model of Python `str.strip()` (ASCII whitespace; the verified claims only
use ASCII text). -/
def pyStrip (s : String) : String :=
  ⟨stripChars s.data⟩

/-- Lower-case an ASCII character, as Python `str.lower()` does on ASCII text. -/
def asciiLower (c : Char) : Char :=
  if 'A' ≤ c ∧ c ≤ 'Z' then Char.ofNat (c.toNat + 32) else c

/-- Model of Python `str.lower()` on ASCII text. -/
def pyLower (s : String) : String :=
  ⟨s.data.map asciiLower⟩

/-- Check that `pat` is a prefix of `hay` (character lists). -/
def listStartsWith : List Char → List Char → Bool
  | _, [] => true
  | [], _ :: _ => false
  | c :: cs, p :: ps => c = p && listStartsWith cs ps

/-- Check that `pat` occurs as a contiguous sublist of `hay`. -/
def listContainsSub : List Char → List Char → Bool
  | [], pat => pat.isEmpty
  | c :: cs, pat => listStartsWith (c :: cs) pat || listContainsSub cs pat

/-- Model of the Python substring test `pat in hay`. -/
def containsSub (hay pat : String) : Bool :=
  listContainsSub hay.data pat.data

/-- The built-in Python classes that appear as coercion targets or as runtime
classes of values in the engine. -/
inductive Class where
  | boolC
  | intC
  | floatC
  | strC
  | listC
  | tupleC
  | dictC
deriving DecidableEq, Repr

/-- Python runtime values produced by the engine: JSON-decodable data plus
constructed dataclass instances (`record`). -/
inductive Val where
  | none
  | bool (b : Bool)
  | int (n : Int)
  | float (q : ℚ)
  | str (s : String)
  | list (xs : List Val)
  | tuple (xs : List Val)
  | dict (entries : List (Val × Val))
  | record (dc : String) (fields : List (String × Val))

/-- Target type expressions: bare classes, dataclass types (each declared field
carries a flag saying whether it has a default value), and the parameterized
generics `list[T]`, `tuple[...]` and `dict[K, V]` handled by `_is_match`.
A `Option.none` entry in `tupleOf` models a literal `Ellipsis` argument of
`tuple[T, ...]`. -/
inductive TypeExpr where
  | cls (c : Class)
  | dataclassOf (name : String) (fieldsSpec : List (String × Bool))
  | listOf (e : TypeExpr)
  | tupleOf (args : List (Option TypeExpr))
  | dictOf (k v : TypeExpr)

/-- Python `isinstance` against a bare built-in class. Note that `bool` is a
subclass of `int` in Python, so `isinstance(True, int)` is `True`; `int` is not
a subclass of `float`. -/
def instCls : Val → Class → Bool
  | .bool _, .boolC => true
  | .bool _, .intC => true
  | .int _, .intC => true
  | .float _, .floatC => true
  | .str _, .strC => true
  | .list _, .listC => true
  | .tuple _, .tupleC => true
  | .dict _, .dictC => true
  | _, _ => false

/-- Exact runtime class of a value (no subclass identification): `type(v) is c`. -/
def runtimeIs : Val → Class → Bool
  | .bool _, .boolC => true
  | .int _, .intC => true
  | .float _, .floatC => true
  | .str _, .strC => true
  | .list _, .listC => true
  | .tuple _, .tupleC => true
  | .dict _, .dictC => true
  | _, _ => false

/-- Whether a type expression is a parameterized generic (`list[T]`,
`tuple[...]`, `dict[K, V]`) rather than a plain class. -/
def isParameterized : TypeExpr → Bool
  | .listOf _ => true
  | .tupleOf _ => true
  | .dictOf _ _ => true
  | _ => false

/-- Python `isinstance(v, t)` for a type expression. `isinstance` with a
parameterized generic second argument (for example `list[int]`) raises
`TypeError: isinstance() argument 2 cannot be a parameterized generic`. -/
def pyIsinstance : Val → TypeExpr → Except Exc Bool
  | v, .cls c => .ok (instCls v c)
  | v, .dataclassOf n _ =>
    .ok (match v with
      | .record m _ => n == m
      | _ => false)
  | _, .listOf _ => .error .typeError
  | _, .tupleOf _ => .error .typeError
  | _, .dictOf _ _ => .error .typeError

/-- Python `isinstance(v, a)` where `a` is a `get_args` entry; `isinstance`
with the literal `Ellipsis` raises `TypeError`. -/
def pyIsinstanceArg : Val → Option TypeExpr → Except Exc Bool
  | v, some t => pyIsinstance v t
  | _, Option.none => .error .typeError

/-- Python `all(isinstance(x, t) for x in xs)`: stops at the first `False`;
an exception raised while evaluating an element propagates. -/
def allIsinstance : List Val → TypeExpr → Except Exc Bool
  | [], _ => .ok true
  | x :: xs, t =>
    match pyIsinstance x t with
    | .error e => .error e
    | .ok false => .ok false
    | .ok true => allIsinstance xs t

/-- Python `all(isinstance(v, t) for v, t in zip(xs, args))`. -/
def allIsinstancePairs : List Val → List (Option TypeExpr) → Except Exc Bool
  | [], _ => .ok true
  | _ :: _, [] => .ok true
  | v :: vs, a :: as' =>
    match pyIsinstanceArg v a with
    | .error e => .error e
    | .ok false => .ok false
    | .ok true => allIsinstancePairs vs as'

/-- Python `all(isinstance(k, kt) and isinstance(v, vt) for k, v in d.items())`. -/
def allIsinstanceKV : List (Val × Val) → TypeExpr → TypeExpr → Except Exc Bool
  | [], _, _ => .ok true
  | (k, v) :: rest, kt, vt =>
    match pyIsinstance k kt with
    | .error e => .error e
    | .ok false => .ok false
    | .ok true =>
      match pyIsinstance v vt with
      | .error e => .error e
      | .ok false => .ok false
      | .ok true => allIsinstanceKV rest kt vt

/-- Numeric value of a list of decimal digit characters. -/
def natOfDigits (cs : List Char) : Nat :=
  cs.foldl (fun n c => n * 10 + (c.toNat - 48)) 0

/-- Parse a nonempty all-digit character list, or fail. -/
def digitsVal (cs : List Char) : Option Nat :=
  if cs ≠ [] ∧ cs.all Char.isDigit then some (natOfDigits cs) else Option.none

/-- Model of the Python builtin `int(s)` on strings: optional surrounding
whitespace, an optional sign, then one or more decimal digits. (CPython also
accepts underscore separators and non-ASCII digits; no verified claim depends
on those, so they are not modelled.) Raises `ValueError` otherwise. -/
def pyInt (s : String) : Except Exc Int :=
  match stripChars s.data with
  | '-' :: rest =>
    match digitsVal rest with
    | some n => .ok (-(n : Int))
    | Option.none => .error .valueError
  | '+' :: rest =>
    match digitsVal rest with
    | some n => .ok (n : Int)
    | Option.none => .error .valueError
  | cs =>
    match digitsVal cs with
    | some n => .ok (n : Int)
    | Option.none => .error .valueError

/-- Exact rational value of the decimal literal
`[-] digits . digits * 10 ^ e`, where `mantDigits` is the concatenated digit
string and `fracLen` the number of digits after the point. Built from core
`mkRat` and `Nat.pow` so that the value reduces definitionally. -/
def ratOfDecimal (neg : Bool) (mantDigits : Nat) (fracLen : Nat) (e : Int) : ℚ :=
  let sign : Int := if neg then -1 else 1
  match e with
  | .ofNat k => mkRat (sign * (mantDigits : Int) * ((10 ^ k : Nat) : Int)) (10 ^ fracLen)
  | .negSucc k => mkRat (sign * (mantDigits : Int)) (10 ^ (fracLen + (k + 1)))

/-- Mantissa-and-exponent part of `pyFloat`, after the sign is removed:
`digits [. digits] [(e|E) [+|-] digits]` with at least one mantissa digit.
Floats are modelled by exact rationals. -/
def pyFloatCore (cs : List Char) : Option ℚ :=
  let ip := cs.takeWhile Char.isDigit
  let r1 := cs.dropWhile Char.isDigit
  let fr : List Char × List Char :=
    match r1 with
    | '.' :: rest => (rest.takeWhile Char.isDigit, rest.dropWhile Char.isDigit)
    | _ => ([], r1)
  let fp := fr.1
  let r2 := fr.2
  if ip = [] ∧ fp = [] then Option.none
  else
    let mant := natOfDigits (ip ++ fp)
    match r2 with
    | [] => some (ratOfDecimal false mant fp.length 0)
    | e :: rest =>
      if e = 'e' ∨ e = 'E' then
        let se : Int × List Char :=
          match rest with
          | '+' :: t => (1, t)
          | '-' :: t => (-1, t)
          | _ => (1, rest)
        match digitsVal se.2 with
        | some n => some (ratOfDecimal false mant fp.length (se.1 * (n : Int)))
        | Option.none => Option.none
      else Option.none

/-- Model of the Python builtin `float(s)` on strings: optional surrounding
whitespace, optional sign, then a decimal mantissa with optional exponent.
(The `inf`/`nan` literals are not modelled; no verified claim depends on
them.) Raises `ValueError` otherwise. -/
def pyFloat (s : String) : Except Exc ℚ :=
  let step : List Char → Bool × List Char := fun cs =>
    match cs with
    | '-' :: rest => (true, rest)
    | '+' :: rest => (false, rest)
    | _ => (false, cs)
  let sr := step (stripChars s.data)
  match pyFloatCore sr.2 with
  | some q => .ok (if sr.1 then -q else q)
  | Option.none => .error .valueError

/-- The whitespace characters skipped between JSON tokens. -/
def jsonSkipWs (cs : List Char) : List Char :=
  cs.dropWhile (fun c => c = ' ' || c = '\t' || c = '\n' || c = '\r')

/-- Opening curly bracket character. -/
def lbrace : Char := Char.ofNat 123

/-- Closing curly bracket character. -/
def rbrace : Char := Char.ofNat 125

/-- Value of a hexadecimal digit character. -/
def hexVal (c : Char) : Option Nat :=
  if c.isDigit then some (c.toNat - 48)
  else if 'a' ≤ c ∧ c ≤ 'f' then some (c.toNat - 87)
  else if 'A' ≤ c ∧ c ≤ 'F' then some (c.toNat - 55)
  else Option.none

/-- Parse the remainder of a JSON string literal (after the opening quote),
handling the JSON escape sequences; unescaped control characters are
rejected, as in Python's strict-mode `json.loads`. -/
def jsonStringRest : Nat → List Char → List Char → Except Exc (String × List Char)
  | 0, _, _ => .error .jsonError
  | _, [], _ => .error .jsonError
  | fuel + 1, c :: rest, acc =>
    if c = '"' then .ok (⟨acc.reverse⟩, rest)
    else if c = '\\' then
      match rest with
      | [] => .error .jsonError
      | e :: rest2 =>
        if e = '"' || e = '\\' || e = '/' then jsonStringRest fuel rest2 (e :: acc)
        else if e = 'b' then jsonStringRest fuel rest2 (Char.ofNat 8 :: acc)
        else if e = 'f' then jsonStringRest fuel rest2 (Char.ofNat 12 :: acc)
        else if e = 'n' then jsonStringRest fuel rest2 ('\n' :: acc)
        else if e = 'r' then jsonStringRest fuel rest2 ('\r' :: acc)
        else if e = 't' then jsonStringRest fuel rest2 ('\t' :: acc)
        else if e = 'u' then
          match rest2 with
          | h1 :: h2 :: h3 :: h4 :: rest3 =>
            match hexVal h1, hexVal h2, hexVal h3, hexVal h4 with
            | some a, some b, some c', some d =>
              jsonStringRest fuel rest3 (Char.ofNat (((a * 16 + b) * 16 + c') * 16 + d) :: acc)
            | _, _, _, _ => .error .jsonError
          | _ => .error .jsonError
        else .error .jsonError
    else if c.toNat < 32 then .error .jsonError
    else jsonStringRest fuel rest (c :: acc)

/-- Build the value of a JSON numeric literal from its parsed parts. A literal
with a fraction or exponent is a Python `float`, otherwise an `int`. -/
def jsonNumValue (neg : Bool) (ip fp : List Char) (hasFrac : Bool) (expv : Option Int) : Val :=
  if hasFrac ∨ expv.isSome then
    .float (ratOfDecimal neg (natOfDigits (ip ++ fp)) fp.length (expv.getD 0))
  else .int (if neg then -(natOfDigits ip : Int) else (natOfDigits ip : Int))

/-- Parse a JSON numeric literal: `-? (0 | [1-9][0-9]*) (. [0-9]+)? ([eE][+-]?[0-9]+)?`.
(Python's lenient `NaN`/`Infinity` extensions are not modelled; rationals
cannot carry them and no verified claim depends on them.) -/
def jsonNumber (cs : List Char) : Except Exc (Val × List Char) :=
  let sn : Bool × List Char :=
    match cs with
    | '-' :: rest => (true, rest)
    | _ => (false, cs)
  let ip := sn.2.takeWhile Char.isDigit
  let r1 := sn.2.dropWhile Char.isDigit
  if ip = [] then .error .jsonError
  else if ip.length > 1 ∧ ip.head? = some '0' then .error .jsonError
  else
    let fr : List Char × List Char × Bool :=
      match r1 with
      | '.' :: rest => (rest.takeWhile Char.isDigit, rest.dropWhile Char.isDigit, true)
      | _ => ([], r1, false)
    let fp := fr.1
    let r2 := fr.2.1
    let hasFrac := fr.2.2
    if hasFrac ∧ fp = [] then .error .jsonError
    else
      match r2 with
      | c :: rest =>
        if c = 'e' ∨ c = 'E' then
          let se : Int × List Char :=
            match rest with
            | '+' :: t => (1, t)
            | '-' :: t => (-1, t)
            | _ => (1, rest)
          let ed := se.2.takeWhile Char.isDigit
          let r3 := se.2.dropWhile Char.isDigit
          if ed = [] then .error .jsonError
          else .ok (jsonNumValue sn.1 ip fp hasFrac (some (se.1 * (natOfDigits ed : Int))), r3)
        else .ok (jsonNumValue sn.1 ip fp hasFrac Option.none, r2)
      | [] => .ok (jsonNumValue sn.1 ip fp hasFrac Option.none, [])

/-- Insert a key/value pair into a JSON object under construction: a repeated
key overwrites the earlier value in place (Python `dict` semantics); JSON
object keys are always strings. -/
def jsonInsertKV : List (Val × Val) → String → Val → List (Val × Val)
  | [], k, v => [(.str k, v)]
  | (k', v') :: rest, k, v =>
    match k' with
    | .str s => if s = k then (.str k, v) :: rest else (.str s, v') :: jsonInsertKV rest k v
    | other => (other, v') :: jsonInsertKV rest k v

/-- Parsing mode of the recursive-descent JSON reader: a single value, the
element list of an array, or the member list of an object. Folding the three
mutually recursive parsers into one structurally fueled function keeps the
definition kernel-reducible. -/
inductive JMode where
  | value
  | elems (acc : List Val) (first : Bool)
  | members (acc : List (Val × Val)) (first : Bool)

/-- Fueled recursive-descent JSON reader (one step per fuel unit of nesting). -/
def jsonP : Nat → JMode → List Char → Except Exc (Val × List Char)
  | 0, _, _ => .error .jsonError
  | _, _, [] => .error .jsonError
  | fuel + 1, .value, c :: rest =>
    if c = '"' then
      match jsonStringRest (rest.length + 1) rest [] with
      | .ok (s, r) => .ok (.str s, r)
      | .error e => .error e
    else if c = lbrace then jsonP fuel (.members [] true) (jsonSkipWs rest)
    else if c = '[' then jsonP fuel (.elems [] true) (jsonSkipWs rest)
    else if listStartsWith (c :: rest) ['t', 'r', 'u', 'e'] then
      .ok (.bool true, (c :: rest).drop 4)
    else if listStartsWith (c :: rest) ['f', 'a', 'l', 's', 'e'] then
      .ok (.bool false, (c :: rest).drop 5)
    else if listStartsWith (c :: rest) ['n', 'u', 'l', 'l'] then
      .ok (.none, (c :: rest).drop 4)
    else jsonNumber (c :: rest)
  | fuel + 1, .elems acc first, c :: rest =>
    if c = ']' then .ok (.list acc.reverse, rest)
    else
      let afterComma : Except Exc (List Char) :=
        if first then .ok (c :: rest)
        else if c = ',' then .ok (jsonSkipWs rest)
        else .error .jsonError
      match afterComma with
      | .error e => .error e
      | .ok cs2 =>
        match jsonP fuel .value cs2 with
        | .error e => .error e
        | .ok (v, r) => jsonP fuel (.elems (v :: acc) false) (jsonSkipWs r)
  | fuel + 1, .members acc first, c :: rest =>
    if c = rbrace then .ok (.dict acc, rest)
    else
      let afterComma : Except Exc (List Char) :=
        if first then .ok (c :: rest)
        else if c = ',' then .ok (jsonSkipWs rest)
        else .error .jsonError
      match afterComma with
      | .error e => .error e
      | .ok cs2 =>
        match cs2 with
        | [] => .error .jsonError
        | q :: rest2 =>
          if q = '"' then
            match jsonStringRest (rest2.length + 1) rest2 [] with
            | .error e => .error e
            | .ok (k, r1) =>
              match jsonSkipWs r1 with
              | ':' :: r2 =>
                match jsonP fuel .value (jsonSkipWs r2) with
                | .error e => .error e
                | .ok (v, r3) => jsonP fuel (.members (jsonInsertKV acc k v) false) (jsonSkipWs r3)
              | _ => .error .jsonError
          else .error .jsonError

/-- Model of Python `json.loads`: parse one JSON document surrounded by
optional whitespace. On any parse failure the result is an error
(`json.JSONDecodeError`). -/
def jsonLoads (s : String) : Except Exc Val :=
  let cs := jsonSkipWs s.data
  match jsonP (cs.length + 1) .value cs with
  | .error e => .error e
  | .ok (v, rest) => if jsonSkipWs rest = [] then .ok v else .error .jsonError

end Py

namespace Py

/-- Python `all(isinstance(v, a) for v in xs)` where `a` is a `get_args`
entry (possibly the literal `Ellipsis`). -/
def allIsinstanceArg : List Val → Option TypeExpr → Except Exc Bool
  | [], _ => .ok true
  | x :: xs, a =>
    match pyIsinstanceArg x a with
    | .error e => .error e
    | .ok false => .ok false
    | .ok true => allIsinstanceArg xs a

/-- Dataclass construction `expected(**subset)` where `subset` keeps only the
keys of the parsed JSON object whose names are declared fields
(`{k: v for k, v in parsed.items() if k in field_names}`). Construction
raises `TypeError` when a field without a default value is missing. -/
def constructDataclass (name : String) (spec : List (String × Bool))
    (entries : List (Val × Val)) : Except Exc Val :=
  let fieldNames := spec.map Prod.fst
  let subset := entries.filterMap fun kv =>
    match kv with
    | (.str s, v) => if fieldNames.contains s then some (s, v) else Option.none
    | _ => Option.none
  if spec.all (fun f => f.2 || (subset.map Prod.fst).contains f.1) then .ok (.record name subset)
  else .error .typeError

end Py

namespace Vibetools

open Py

/-- The truthy literal set of `_maybe_coerce` in
`src/vibetools/llms/llm_wrapper.py`. -/
def truthyLits : List String := ["true", "t", "yes", "y", "1"]

/-- The falsy literal set of `_maybe_coerce` in
`src/vibetools/llms/llm_wrapper.py`. -/
def falsyLits : List String := ["false", "f", "no", "n", "0"]

/-- Embedding of `LlmWrapper._is_match` from
`src/vibetools/llms/llm_wrapper.py` (lines 230-333). The same logic appears,
modulo debug logging, as `VibeBaseLlm._is_match` in
`src/vibetools/llms/vibe_base_llm.py` restricted to the modelled type
universe (which contains no TypedDict and no pydantic model, so the extra
TypedDict branch of `vibe_base_llm.py` and the pydantic branches are inert).
Branches, in source order: falsy `expected` → `True`; `expected is str` →
`isinstance(value, str)`; bare classes (incl. dataclasses) →
`isinstance(value, expected)`; `list[T]` → origin check then
`all(isinstance(x, T) ...)`; `tuple[...]` → arity or `Ellipsis`-variadic
check; `dict[K, V]` → per-item key/value `isinstance`; anything else →
permissive `True`. `isinstance` against a parameterized generic raises
`TypeError`, which propagates out of `_is_match`. -/
def is_match (value : Val) (expected : Option TypeExpr) : Except Exc Bool :=
  match expected with
  | Option.none => .ok true
  | some t =>
    match t with
    | .cls .strC => .ok (instCls value .strC)
    | .cls c => .ok (instCls value c)
    | .dataclassOf n fs => pyIsinstance value (.dataclassOf n fs)
    | .listOf e =>
      match value with
      | .list xs => allIsinstance xs e
      | _ => .ok false
    | .tupleOf args =>
      match value with
      | .tuple xs =>
        match args with
        | [] => .ok true
        | _ :: _ =>
          if args.length = xs.length then allIsinstancePairs xs args
          else
            match args with
            | [a0, Option.none] => allIsinstanceArg xs a0
            | _ => .ok false
      | _ => .ok false
    | .dictOf kt vt =>
      match value with
      | .dict es => allIsinstanceKV es kt vt
      | _ => .ok false

/-- The post-JSON-parse branches of `_maybe_coerce` shared by both wrapper
generations: dataclass construction from the overlapping keys of a parsed
JSON object (falling back to the parsed dict when construction raises), and
otherwise the parsed JSON value unchanged. The pydantic branch of the source
is a no-op for the modelled type universe (it contains no pydantic model). -/
def coerceStructured (t : TypeExpr) (parsed : Val) : Val :=
  match t, parsed with
  | .dataclassOf n spec, .dict es =>
    match constructDataclass n spec es with
    | .ok v => v
    | .error _ => .dict es
  | _, _ => parsed

/-- The post-JSON primitive nudge for a `bool` target in `_maybe_coerce`
(`src/vibetools/llms/llm_wrapper.py` lines 168-181): a parsed bool is
returned as is; a parsed string is re-checked against the literal sets; a
parsed number equal to 0 or 1 becomes `bool(parsed)`. `Option.none` means
the block falls through without returning. -/
def boolNudge (parsed : Val) : Option Val :=
  match parsed with
  | .bool b => some (.bool b)
  | .str s =>
    let low := pyLower (pyStrip s)
    if truthyLits.contains low then some (.bool true)
    else if falsyLits.contains low then some (.bool false)
    else Option.none
  | .int n => if n = 0 ∨ n = 1 then some (.bool (decide (n ≠ 0))) else Option.none
  | .float q => if q = 0 ∨ q = 1 then some (.bool (decide (q ≠ 0))) else Option.none
  | _ => Option.none

/-- Embedding of `LlmWrapper._maybe_coerce` from
`src/vibetools/llms/llm_wrapper.py` (lines 121-228). Each `match` on an
inner `Except` value transcribes a `try/except` of the source, so every
branch ends in `.ok`: the Python function catches everything it calls.
Source order: falsy/`str` target → raw text unchanged; primitive fast paths
on the stripped text (bool literal sets, `int(s)`, `float(s)`); `json.loads`
(parse failure → raw text unchanged); post-JSON primitive nudges; dataclass
construction; otherwise the parsed JSON value. -/
def maybe_coerce (raw_text : String) (expected : Option TypeExpr) : Except Exc Val :=
  match expected with
  | Option.none => .ok (.str raw_text)
  | some t =>
    match t with
    | .cls .strC => .ok (.str raw_text)
    | _ =>
      let s := pyStrip raw_text
      let fast : Option Val :=
        match t with
        | .cls .boolC =>
          let low := pyLower s
          if truthyLits.contains low then some (.bool true)
          else if falsyLits.contains low then some (.bool false)
          else Option.none
        | .cls .intC => (pyInt s).toOption.map Val.int
        | .cls .floatC => (pyFloat s).toOption.map Val.float
        | _ => Option.none
      match fast with
      | some v => .ok v
      | Option.none =>
        match jsonLoads raw_text with
        | .error _ => .ok (.str raw_text)
        | .ok parsed =>
          match t with
          | .cls .boolC =>
            match boolNudge parsed with
            | some v => .ok v
            | Option.none => .ok (coerceStructured t parsed)
          | .cls .intC =>
            match parsed with
            | .str s2 =>
              match pyInt (pyStrip s2) with
              | .ok n2 => .ok (.int n2)
              | .error _ => .ok (coerceStructured t parsed)
            | _ => .ok (coerceStructured t parsed)
          | .cls .floatC =>
            match parsed with
            | .str s2 =>
              match pyFloat (pyStrip s2) with
              | .ok q2 => .ok (.float q2)
              | .error _ => .ok (coerceStructured t parsed)
            | _ => .ok (coerceStructured t parsed)
          | _ => .ok (coerceStructured t parsed)

end Vibetools

namespace Llms

open Py

/-- Embedding of `LlmWrapper._maybe_coerce` from `src/llms/llm_wrapper.py`
(lines 67-116): no primitive fast paths and no post-JSON nudges — falsy or
`str` target returns the raw text, then `json.loads` (failure → raw text),
then the dataclass/pydantic construction and parsed-JSON fallback shared
with the vibetools generation. -/
def maybe_coerce (raw_text : String) (expected : Option TypeExpr) : Except Exc Val :=
  match expected with
  | Option.none => .ok (.str raw_text)
  | some t =>
    match t with
    | .cls .strC => .ok (.str raw_text)
    | _ =>
      match jsonLoads raw_text with
      | .error _ => .ok (.str raw_text)
      | .ok parsed => .ok (Vibetools.coerceStructured t parsed)

/-- Embedding of `LlmWrapper._is_match` from `src/llms/llm_wrapper.py`
(lines 118-178), whose logic is identical, modulo debug logging, to
`_is_match` in `src/vibetools/llms/llm_wrapper.py`. -/
def is_match (value : Val) (expected : Option TypeExpr) : Except Exc Bool :=
  Vibetools.is_match value expected

end Llms

namespace VibeCheck

open Py

/-- Embedding of `VibeCheckConfig` from `src/models/config.py`. Durations are
exact rationals (seconds). Its docstring promises that the wrapper uses
`max(num_tries, max_retries + 1)` total attempts when both knobs are given. -/
structure VibeCheckConfig where
  num_tries : Nat := 1
  max_retries : Nat := 0
  backoff_base : ℚ := 1 / 2
  backoff_max : ℚ := 8

/-- Outcome of one `client.models.generate_content` call: either the SDK call
raises, or it returns a response whose `text` attribute may be absent/None. -/
inductive GenOutcome where
  | raises
  | returns (text : Option String)

/-- The text the wrappers extract from a response:
`(getattr(response, "text", None) or "")`. -/
def effectiveText (t : Option String) : String :=
  t.getD ""

/-- Result of `GeminiWrapper.vibe_eval_statement`: a boolean, or the
`VibeResponseTypeException` raised after the loop exhausts its attempts. -/
inductive StmtOutcome where
  | result (b : Bool)
  | vibeResponseTypeExc

/-- One execution of the `for attempt in range(1, num_tries + 1)` loop of
`GeminiWrapper.vibe_eval_statement` (`src/llms/gemini_wrapper.py` lines
45-66), starting at `attempt` with `rem` iterations left. Returns the
outcome, the number of `generate_content` calls made, and the trace of
`time.sleep` delays requested by the loop — the loop body contains no sleep
call, so that trace is built empty. An SDK exception or a response whose
lower-cased text contains neither "true" nor "false" falls through to the
next iteration; "true" is tested before "false". -/
def evalStatementFrom (gen : Nat → GenOutcome) : Nat → Nat → StmtOutcome × Nat × List ℚ
  | _, 0 => (.vibeResponseTypeExc, 0, [])
  | attempt, rem + 1 =>
    match gen attempt with
    | .raises =>
      let r := evalStatementFrom gen (attempt + 1) rem
      (r.1, r.2.1 + 1, r.2.2)
    | .returns t =>
      let output_text := pyStrip (pyLower (effectiveText t))
      if containsSub output_text "true" then (.result true, 1, [])
      else if containsSub output_text "false" then (.result false, 1, [])
      else
        let r := evalStatementFrom gen (attempt + 1) rem
        (r.1, r.2.1 + 1, r.2.2)

/-- Embedding of `GeminiWrapper.vibe_eval_statement`
(`src/llms/gemini_wrapper.py` lines 31-66): the attempt loop runs
`config.num_tries` times (the `max_retries`/backoff knobs of
`VibeCheckConfig` are read nowhere in `src/llms/`), then raises
`VibeResponseTypeException`. -/
def vibe_eval_statement (cfg : VibeCheckConfig) (gen : Nat → GenOutcome) :
    StmtOutcome × Nat × List ℚ :=
  evalStatementFrom gen 1 cfg.num_tries

/-- Result of `GeminiWrapper.vibe_call_function`: a value, the
`VibeResponseTypeException` raised on exhaustion, or a Python exception
escaping the loop (e.g. a `TypeError` from `_is_match`, which the loop does
not catch). -/
inductive FnOutcome where
  | value (v : Val)
  | vibeResponseTypeExc
  | pyRaised (e : Exc)

/-- One execution of the attempt loop of `GeminiWrapper.vibe_call_function`
(`src/llms/gemini_wrapper.py` lines 101-128), starting at `attempt` with
`rem` iterations left; also returns the number of `generate_content` calls
made. Each iteration: call the SDK (an exception continues the loop), strip
the response text, return it directly when no return type is declared,
otherwise coerce with `_maybe_coerce` and test `_is_match`; a match returns
the value, a mismatch continues the loop. -/
def vibeCallFunctionFrom (gen : Nat → GenOutcome) (rt : Option TypeExpr) :
    Nat → Nat → FnOutcome × Nat
  | _, 0 => (.vibeResponseTypeExc, 0)
  | attempt, rem + 1 =>
    match gen attempt with
    | .raises =>
      let r := vibeCallFunctionFrom gen rt (attempt + 1) rem
      (r.1, r.2 + 1)
    | .returns t =>
      let raw_text := pyStrip (effectiveText t)
      match rt with
      | Option.none => (.value (.str raw_text), 1)
      | some _ =>
        match Llms.maybe_coerce raw_text rt with
        | .error e => (.pyRaised e, 1)
        | .ok v =>
          match Llms.is_match v rt with
          | .error e => (.pyRaised e, 1)
          | .ok true => (.value v, 1)
          | .ok false =>
            let r := vibeCallFunctionFrom gen rt (attempt + 1) rem
            (r.1, r.2 + 1)

/-- Embedding of `GeminiWrapper.vibe_call_function`
(`src/llms/gemini_wrapper.py` lines 68-128): `return_type` is `None` when
the wrapped signature has no return annotation; the attempt loop runs
`config.num_tries` times and then raises `VibeResponseTypeException`. -/
def vibe_call_function (cfg : VibeCheckConfig) (gen : Nat → GenOutcome)
    (rt : Option TypeExpr) : FnOutcome × Nat :=
  vibeCallFunctionFrom gen rt 1 cfg.num_tries

/-- Decide that a backend response makes the shape check of
`vibe_call_function` fail: the SDK call returns text whose coerced value is
rejected (with `False`, not an exception) by `_is_match`. -/
def respFailsShape (g : GenOutcome) (ty : TypeExpr) : Bool :=
  match g with
  | .raises => false
  | .returns t =>
    match Llms.maybe_coerce (pyStrip (effectiveText t)) (some ty) with
    | .error _ => false
    | .ok v =>
      match Llms.is_match v (some ty) with
      | .ok false => true
      | _ => false

end VibeCheck

namespace Vibetools

open Py
open VibeCheck (GenOutcome effectiveText)

/-- The exception types of `src/vibetools/exceptions/exceptions.py`, plus
`generic`, which models a plain `Exception` carrying an optional `__cause__`
(as raised by `_run_with_timeout`). -/
inductive VibeExc where
  | llmClient
  | responseParse
  | llmApi
  | vibeTimeout
  | inputType
  | generic (cause : Option VibeExc)

/-- Embedding of `GeminiWrapper.vibe_eval` from
`src/vibetools/llms/gemini_wrapper.py` (lines 38-81): one backend call, no
retry loop. An SDK exception is caught by `except Exception` and re-raised
as `VibeLlmApiException`; with no declared return type the stripped text is
returned; otherwise the coerced value is returned when `_is_match` accepts
it, a mismatch raises `VibeResponseParseException` (re-raised unchanged by
the dedicated `except`), and any exception escaping the helpers (e.g. a
`TypeError` from `_is_match`) is also converted to `VibeLlmApiException`. -/
def gemini_vibe_eval (g : GenOutcome) (rt : Option TypeExpr) : Except VibeExc Val :=
  match g with
  | .raises => .error .llmApi
  | .returns t =>
    let raw_text := pyStrip (effectiveText t)
    match rt with
    | Option.none => .ok (.str raw_text)
    | some _ =>
      match maybe_coerce raw_text rt with
      | .error _ => .error .llmApi
      | .ok v =>
        match is_match v rt with
        | .error _ => .error .llmApi
        | .ok true => .ok v
        | .ok false => .error .responseParse

/-- Observable behaviour of the worker thread started by
`_run_with_timeout`: either it is still running when `thread.join(timeout)`
returns (the wall-clock budget elapsed before the call finished), or it
finished with a result or an exception. -/
inductive TimedOutcome where
  | timesOut
  | completes (r : Except VibeExc Val)

/-- Embedding of `VibeBaseLlm._run_with_timeout`
(`src/vibetools/llms/vibe_base_llm.py` lines 32-78). The thread mechanics
are abstracted into `TimedOutcome`: a call still alive after the join
raises `VibeTimeoutException`; a call that finished with an exception is
re-raised as a plain `Exception("Exception occurred in target function")`
with the original attached as `__cause__` (modelled by `generic (some e)`);
otherwise the result is returned. -/
def run_with_timeout : TimedOutcome → Except VibeExc Val
  | .timesOut => .error .vibeTimeout
  | .completes (.error e) => .error (.generic (some e))
  | .completes (.ok v) => .ok v

/-- Embedding of `VibeLlmClient.vibe_eval`
(`src/vibetools/_internal/vibe_llm_client.py` lines 74-97): a non-string
prompt raises `VibeInputTypeException` before any backend work; otherwise
`self.llm.vibe_eval` is run under `_run_with_timeout`. The second component
counts backend-call invocations started (the source starts exactly one
worker thread; there is no retry loop on this path). -/
def client_vibe_eval (prompt : Val) (call : TimedOutcome) : Except VibeExc Val × Nat :=
  if instCls prompt .strC then (run_with_timeout call, 1)
  else (.error .inputType, 0)

/-- The kind of backend client handle passed to `VibeLlmClient.__init__`. -/
inductive ClientKind where
  | openai
  | gemini
  | other

/-- Embedding of the constructor dispatch of `VibeLlmClient.__init__`
(`src/vibetools/_internal/vibe_llm_client.py` lines 64-72): an `OpenAI`
client selects the OpenAI wrapper, a `genai.Client` the Gemini wrapper, and
anything else raises `VibeLlmClientException` at construction time. -/
def vibe_llm_client_init : ClientKind → Except VibeExc ClientKind
  | .openai => .ok .openai
  | .gemini => .ok .gemini
  | .other => .error .llmClient

end Vibetools

/-- C1: the spec claims the controller sleeps `min(backoff_base * 2^(i-1),
backoff_max)` between failed attempts (with `backoff_base = 0.5`,
`backoff_max = 2.0`, `max_attempts = 4` and every attempt failing, delays
`[0.5, 1.0, 2.0]`). The code has no such behaviour: the attempt loop of
`vibe_eval_statement` contains no sleep at all (and ignores the
`max_retries`/backoff knobs of `VibeCheckConfig`), so running the claimed
scenario makes 4 backend calls, records no delay, and the recorded trace is
not the claimed `[0.5, 1.0, 2.0]`. The repo's own tests
(`tests/test_retry_gemini.py`) assert the sleeps the spec describes, so this
is a code bug, witnessed here by evaluating the embedded code at the
claimed failing input. -/
theorem c1_no_backoff_sleeps :
    VibeCheck.vibe_eval_statement ⟨4, 0, 1 / 2, 2⟩ (fun _ => .returns (some "maybe"))
      = (.vibeResponseTypeExc, 4, ([] : List ℚ))
    ∧ ([] : List ℚ) ≠ [1 / 2, 1, 2] :=
  ⟨rfl, by simp⟩

/-- C2: an evaluation whose backend call does not return within the
configured timeout raises `VibeTimeoutException` to the caller, and the
whole evaluation is over: exactly one backend invocation was started and no
retry happens (the `VibeLlmClient.vibe_eval` path contains no retry loop,
and `_run_with_timeout` raises as soon as the join elapses with the worker
still alive). -/
theorem c2_timeout_fatal_no_retry (s : String) (call : Vibetools.TimedOutcome)
    (h : call = .timesOut) :
    Vibetools.client_vibe_eval (.str s) call = (.error .vibeTimeout, 1) := by
  subst h; rfl

/-- Witness for C2 at a concrete prompt and a hung backend call. -/
theorem c2_timeout_fatal_no_retry_witness :
    Vibetools.client_vibe_eval (.str "p") .timesOut = (.error .vibeTimeout, 1) :=
  c2_timeout_fatal_no_retry "p" .timesOut rfl

/-- C3: for every raw text whose stripped, lower-cased form is in
`{"true","t","yes","y","1"}` (resp. `{"false","f","no","n","0"}`), coercion
with target `bool` returns `True` (resp. `False`). The statement quantifies
over all raw strings, including ones that are not valid JSON (such as
`"t"`, `"yes"`), which is the observable content of the literal-set check
running before structured JSON parsing. The same literals also coerce when
wrapped as a JSON string: raw text `"1"` (with quotes) coerces to `True`
through the post-JSON nudge. -/
theorem c3_bool_literal_fast_path (raw : String) :
    (Py.pyLower (Py.pyStrip raw) ∈ Vibetools.truthyLits →
      Vibetools.maybe_coerce raw (some (.cls .boolC)) = .ok (.bool true))
    ∧ (Py.pyLower (Py.pyStrip raw) ∈ Vibetools.falsyLits →
      Vibetools.maybe_coerce raw (some (.cls .boolC)) = .ok (.bool false))
    ∧ Vibetools.maybe_coerce "\"1\"" (some (.cls .boolC)) = .ok (.bool true) := by
  refine ⟨fun h1 => ?_, fun h2 => ?_, rfl⟩
  · simp only [Vibetools.truthyLits, List.mem_cons, List.mem_singleton,
      List.not_mem_nil, or_false] at h1
    rcases h1 with h | h | h | h | h <;>
      simp +decide [Vibetools.maybe_coerce, h]
  · simp only [Vibetools.falsyLits, List.mem_cons, List.mem_singleton,
      List.not_mem_nil, or_false] at h2
    rcases h2 with h | h | h | h | h <;>
      simp +decide [Vibetools.maybe_coerce, h]

/-- Witness for C3 at concrete truthy and falsy literals. -/
theorem c3_bool_literal_fast_path_witness :
    Vibetools.maybe_coerce " Yes " (some (.cls .boolC)) = .ok (.bool true)
    ∧ Vibetools.maybe_coerce "N" (some (.cls .boolC)) = .ok (.bool false) :=
  ⟨(c3_bool_literal_fast_path " Yes ").1 (by decide),
   (c3_bool_literal_fast_path "N").2.1 (by decide)⟩

/-- C4 counterexample: the claim says a bool value does not match an `int`
target, but `_is_match` uses `isinstance`, and in Python `bool` is a
subclass of `int`: the value `True`, whose runtime type is `bool` and not
`int`, matches the `int` target. -/
theorem c4_bool_matches_int_target :
    Py.runtimeIs (.bool true) .intC = false
    ∧ Vibetools.is_match (.bool true) (some (.cls .intC)) = .ok true :=
  ⟨rfl, rfl⟩

/-- C4 amended: for a `bool`, `int` or `float` target, `matches` returns
exactly Python's `isinstance` verdict: for `bool` and `float` this is the
exact runtime type (in particular an int value does not match a `float`
target — no widening), but for an `int` target both int values and bool
values match, because `bool` is a subclass of `int`. -/
theorem c4_primitive_match_isinstance (v : Py.Val) (c : Py.Class)
    (h : c = .boolC ∨ c = .intC ∨ c = .floatC) :
    Vibetools.is_match v (some (.cls c)) = .ok (Py.instCls v c)
    ∧ Py.instCls v .boolC = Py.runtimeIs v .boolC
    ∧ Py.instCls v .floatC = Py.runtimeIs v .floatC
    ∧ Py.instCls v .intC = (Py.runtimeIs v .intC || Py.runtimeIs v .boolC) := by
  rcases h with h | h | h <;> subst h <;>
    exact ⟨rfl, by cases v <;> rfl, by cases v <;> rfl, by cases v <;> rfl⟩

/-- Witness for C4 amended at the value `True` and target `int`. -/
theorem c4_primitive_match_isinstance_witness :
    Vibetools.is_match (.bool true) (some (.cls .intC))
      = .ok (Py.instCls (.bool true) .intC)
    ∧ Py.instCls (.bool true) .boolC = Py.runtimeIs (.bool true) .boolC
    ∧ Py.instCls (.bool true) .floatC = Py.runtimeIs (.bool true) .floatC
    ∧ Py.instCls (.bool true) .intC
      = (Py.runtimeIs (.bool true) .intC || Py.runtimeIs (.bool true) .boolC) :=
  c4_primitive_match_isinstance (.bool true) .intC (by decide)

/-- Helper for C5: when every backend response fails the shape check, each
iteration of the `vibe_call_function` loop falls through to the next, so a
loop given `rem` remaining attempts makes exactly `rem` backend calls and
ends in `VibeResponseTypeException`. -/
theorem vibeCallFunctionFrom_all_fail (gen : Nat → VibeCheck.GenOutcome) (ty : Py.TypeExpr)
    (h : ∀ i, VibeCheck.respFailsShape (gen i) ty = true) :
    ∀ rem attempt, VibeCheck.vibeCallFunctionFrom gen (some ty) attempt rem
      = (.vibeResponseTypeExc, rem) := by
  intro rem
  induction rem with
  | zero => intro attempt; rfl
  | succ n ih =>
    intro attempt
    have hf := h attempt
    cases hg : gen attempt with
    | raises => simp [VibeCheck.respFailsShape, hg] at hf
    | returns t =>
      simp only [VibeCheck.respFailsShape, hg] at hf
      cases hc : Llms.maybe_coerce (Py.pyStrip (VibeCheck.effectiveText t)) (some ty) with
      | error e => simp [hc] at hf
      | ok v =>
        cases hm : Llms.is_match v (some ty) with
        | error e => simp [hc, hm] at hf
        | ok b =>
          cases b with
          | true => simp [hc, hm] at hf
          | false => simp [VibeCheck.vibeCallFunctionFrom, hg, hc, hm, ih]

/-- C5: for a declared target shape and any sequence of backend responses
none of which coerces to a matching value, every attempt's shape check
fails, the loop retries until the configured attempt budget (`num_tries`,
the spec's `max_attempts`) is exhausted, and the operation raises
`VibeResponseTypeException` after exactly that many backend calls. -/
theorem c5_shape_error_after_exhaustion (cfg : VibeCheck.VibeCheckConfig)
    (gen : Nat → VibeCheck.GenOutcome) (ty : Py.TypeExpr)
    (h : ∀ i, VibeCheck.respFailsShape (gen i) ty = true) :
    VibeCheck.vibe_call_function cfg gen (some ty)
      = (.vibeResponseTypeExc, cfg.num_tries) :=
  vibeCallFunctionFrom_all_fail gen ty h cfg.num_tries 1

/-- Witness for C5: the backend always answers "maybe" for a boolean target
with three attempts — `VibeResponseTypeException` after exactly 3 calls. -/
theorem c5_shape_error_after_exhaustion_witness :
    VibeCheck.vibe_call_function ⟨3, 0, 1 / 2, 2⟩ (fun _ => .returns (some "maybe"))
        (some (.cls .boolC)) = (.vibeResponseTypeExc, 3) :=
  c5_shape_error_after_exhaustion ⟨3, 0, 1 / 2, 2⟩ (fun _ => .returns (some "maybe"))
    (.cls .boolC)
    (fun i => by
      show VibeCheck.respFailsShape (.returns (some "maybe")) (.cls .boolC) = true
      decide)

/-- C6 counterexample: a response-shape failure inside the timed backend
call does not reach the caller with its own exception type. The wrapper
raises `VibeResponseParseException`, but `_run_with_timeout` re-raises it
as a plain `Exception("Exception occurred in target function")` with the
original only attached as `__cause__`, so the immediate caller of
`VibeLlmClient.vibe_eval` receives the generic exception, contradicting the
claim that no error is replaced internally. -/
theorem c6_shape_error_wrapped_generic :
    Vibetools.client_vibe_eval (.str "p")
        (.completes (Vibetools.gemini_vibe_eval (.returns (some "maybe"))
          (some (.cls .boolC))))
      = (.error (.generic (some .responseParse)), 1)
    ∧ (Vibetools.client_vibe_eval (.str "p")
        (.completes (Vibetools.gemini_vibe_eval (.returns (some "maybe"))
          (some (.cls .boolC))))).1
      ≠ .error .responseParse :=
  ⟨rfl, fun h => by injection h with h2; exact Vibetools.VibeExc.noConfusion h2⟩

/-- C6 amended: client-configuration, invalid-argument and timeout errors
are raised to the immediate caller with their own distinguishable types,
and the backend wrapper raises backend-call errors as `VibeLlmApiException`
and shape errors as `VibeResponseParseException`; but any exception raised
inside the timed backend call (hence the backend-call and response-shape
errors of a full evaluation) reaches the caller of the public operation
replaced by a generic `Exception` that carries the original as its cause —
superseded in form, though not silently swallowed. -/
theorem c6_error_propagation_amended (s : String) (v : Py.Val)
    (call : Vibetools.TimedOutcome) (e : Vibetools.VibeExc) :
    (Py.instCls v .strC = false →
      Vibetools.client_vibe_eval v call = (.error .inputType, 0))
    ∧ (call = .timesOut →
      Vibetools.client_vibe_eval (.str s) call = (.error .vibeTimeout, 1))
    ∧ (call = .completes (.error e) →
      Vibetools.client_vibe_eval (.str s) call = (.error (.generic (some e)), 1))
    ∧ Vibetools.vibe_llm_client_init .other = .error .llmClient
    ∧ (∀ (g : VibeCheck.GenOutcome) (rt : Option Py.TypeExpr), g = .raises →
      Vibetools.gemini_vibe_eval g rt = .error .llmApi) := by
  refine ⟨fun h => ?_, fun h => by subst h; rfl, fun h => by subst h; rfl, rfl,
    fun g rt h => by subst h; rfl⟩
  cases v <;> simp_all [Vibetools.client_vibe_eval, Py.instCls]

/-- Witness for C6 amended at concrete inputs: a non-string prompt, a hung
call, and a call that finished with a wrapper-level error. -/
theorem c6_error_propagation_amended_witness :
    Vibetools.client_vibe_eval (.int 1) .timesOut = (.error .inputType, 0)
    ∧ Vibetools.client_vibe_eval (.str "p") .timesOut = (.error .vibeTimeout, 1)
    ∧ Vibetools.client_vibe_eval (.str "p") (.completes (.error .llmApi))
      = (.error (.generic (some .llmApi)), 1) :=
  ⟨(c6_error_propagation_amended "p" (.int 1) .timesOut .llmApi).1 rfl,
   (c6_error_propagation_amended "p" (.int 1) .timesOut .llmApi).2.1 rfl,
   (c6_error_propagation_amended "p" (.int 1) (.completes (.error .llmApi))
     .llmApi).2.2.1 rfl⟩

/-- C7 counterexample: the claim says `matches(value, List(E))` recursively
matches elements for every element shape `E`, including nested container
shapes. But `_is_match` checks elements with `isinstance(x, elem_t)`, and
`isinstance` with a parameterized generic raises `TypeError`: on the value
`[[1]]` against `list[list[int]]` the claim demands `True`, while the code
raises instead of returning. -/
theorem c7_nested_list_match_raises :
    Vibetools.is_match (.list [.list [.int 1]]) (some (.listOf (.listOf (.cls .intC))))
      = .error .typeError
    ∧ Vibetools.is_match (.list [.list [.int 1]]) (some (.listOf (.listOf (.cls .intC))))
      ≠ .ok true :=
  ⟨rfl, fun h => Except.noConfusion h⟩

/-- C7 amended: `matches(value, List(E))` equals the per-element
`isinstance` sweep: a non-list value (even another sequence such as a
tuple) never matches; for a list, when `E` is a plain class the result is
`all(isinstance(x, E))`; when `E` is itself a parameterized container
shape, the check raises `TypeError` on the first element instead of
recursing (an empty list still matches). -/
theorem c7_list_match_isinstance :
    (∀ (E : Py.TypeExpr) (xs : List Py.Val),
      Vibetools.is_match (.list xs) (some (.listOf E)) = Py.allIsinstance xs E)
    ∧ (∀ (c : Py.Class) (xs : List Py.Val),
      Py.allIsinstance xs (.cls c) = .ok (xs.all fun x => Py.instCls x c))
    ∧ (∀ (E : Py.TypeExpr) (x : Py.Val) (xs : List Py.Val),
      Py.isParameterized E = true → Py.allIsinstance (x :: xs) E = .error .typeError)
    ∧ (∀ (v : Py.Val) (E : Py.TypeExpr), Py.instCls v .listC = false →
      Vibetools.is_match v (some (.listOf E)) = .ok false) := by
  refine ⟨fun E xs => rfl, fun c xs => ?_, fun E x xs h => ?_, fun v E h => ?_⟩
  · induction xs with
    | nil => rfl
    | cons x xs ih =>
      simp only [Py.allIsinstance, Py.pyIsinstance, List.all_cons]
      cases hx : Py.instCls x c <;> simp [ih]
  · cases E <;> simp_all [Py.allIsinstance, Py.pyIsinstance, Py.isParameterized]
  · cases v <;> first | rfl | (exfalso; simp [Py.instCls] at h)

/-- Witness for C7 amended: a nonempty list against a parameterized element
shape raises, and a tuple value never matches a `list[...]` target. -/
theorem c7_list_match_isinstance_witness :
    Py.allIsinstance [.int 1] (.listOf (.cls .intC)) = .error .typeError
    ∧ Vibetools.is_match (.tuple [.int 1]) (some (.listOf (.cls .intC))) = .ok false :=
  ⟨c7_list_match_isinstance.2.2.1 (.listOf (.cls .intC)) (.int 1) [] rfl,
   c7_list_match_isinstance.2.2.2 (.tuple [.int 1]) (.cls .intC) rfl⟩

/-- C8: for every raw text and every target shape, `_maybe_coerce`
terminates with some value and never raises: every fallible operation it
performs (numeric casts, `json.loads`, dataclass construction) sits inside
a `try/except` whose handler produces a value, so all control paths end in
a normal return. -/
theorem c8_coerce_never_raises (raw : String) (t : Option Py.TypeExpr) :
    ∃ v, Vibetools.maybe_coerce raw t = .ok v := by
  cases t with
  | none => exact ⟨_, rfl⟩
  | some ty =>
    simp only [Vibetools.maybe_coerce]
    repeat' split
    all_goals exact ⟨_, rfl⟩

/-- C9: in statement evaluation, an attempt whose lower-cased response text
contains neither "true" nor "false" counts as failed and the loop proceeds
with the remaining attempts (one more backend call is recorded); and an
attempt whose text contains both substrings returns `True`, because the
"true" test runs before the "false" test. -/
theorem c9_statement_substring_policy (gen : Nat → VibeCheck.GenOutcome)
    (attempt rem : Nat) (t : Option String) (hg : gen attempt = .returns t) :
    (Py.containsSub (Py.pyStrip (Py.pyLower (VibeCheck.effectiveText t))) "true" = false →
     Py.containsSub (Py.pyStrip (Py.pyLower (VibeCheck.effectiveText t))) "false" = false →
      VibeCheck.evalStatementFrom gen attempt (rem + 1)
        = ((VibeCheck.evalStatementFrom gen (attempt + 1) rem).1,
           (VibeCheck.evalStatementFrom gen (attempt + 1) rem).2.1 + 1,
           (VibeCheck.evalStatementFrom gen (attempt + 1) rem).2.2))
    ∧ (Py.containsSub (Py.pyStrip (Py.pyLower (VibeCheck.effectiveText t))) "true" = true →
       Py.containsSub (Py.pyStrip (Py.pyLower (VibeCheck.effectiveText t))) "false" = true →
      VibeCheck.evalStatementFrom gen attempt (rem + 1) = (.result true, 1, [])) := by
  constructor <;> intro h1 h2 <;> simp [VibeCheck.evalStatementFrom, hg, h1, h2]

/-- Witness for C9: "maybe" retries into the remaining attempts; a response
containing both "true" and "false" yields `True`. -/
theorem c9_statement_substring_policy_witness :
    VibeCheck.evalStatementFrom (fun _ => .returns (some "maybe")) 1 2
      = ((VibeCheck.evalStatementFrom (fun _ => .returns (some "maybe")) 2 1).1,
         (VibeCheck.evalStatementFrom (fun _ => .returns (some "maybe")) 2 1).2.1 + 1,
         (VibeCheck.evalStatementFrom (fun _ => .returns (some "maybe")) 2 1).2.2)
    ∧ VibeCheck.evalStatementFrom (fun _ => .returns (some "it is True, not False")) 5 1
      = (.result true, 1, []) :=
  ⟨(c9_statement_substring_policy (fun _ => .returns (some "maybe")) 1 1
      (some "maybe") rfl).1 (by decide) (by decide),
   (c9_statement_substring_policy (fun _ => .returns (some "it is True, not False")) 5 0
      (some "it is True, not False") rfl).2 (by decide) (by decide)⟩

/-- C10: when the target is `bool` and the trimmed, case-folded raw text is
not a boolean literal but the text parses as a JSON number, coercion
returns `True` exactly when the number equals 1 and `False` exactly when it
equals 0 (including the float values 1.0 and 0.0, whose Python equality
with 0 and 1 is numeric); any other numeric value is left unconverted, and
such a value always fails the `bool` shape match. -/
theorem c10_numeric_bool_nudge (raw : String)
    (h1 : Py.pyLower (Py.pyStrip raw) ∉ Vibetools.truthyLits)
    (h2 : Py.pyLower (Py.pyStrip raw) ∉ Vibetools.falsyLits) :
    (∀ n : ℤ, Py.jsonLoads raw = .ok (.int n) →
      Vibetools.maybe_coerce raw (some (.cls .boolC))
        = .ok (if n = 0 ∨ n = 1 then .bool (decide (n ≠ 0)) else .int n)
      ∧ Vibetools.is_match (.int n) (some (.cls .boolC)) = .ok false)
    ∧ (∀ q : ℚ, Py.jsonLoads raw = .ok (.float q) →
      Vibetools.maybe_coerce raw (some (.cls .boolC))
        = .ok (if q = 0 ∨ q = 1 then .bool (decide (q ≠ 0)) else .float q)
      ∧ Vibetools.is_match (.float q) (some (.cls .boolC)) = .ok false) := by
  constructor
  · intro n hj
    refine ⟨?_, rfl⟩
    by_cases hn : n = 0 ∨ n = 1 <;>
      simp [Vibetools.maybe_coerce, hj, h1, h2, Vibetools.boolNudge,
        Vibetools.coerceStructured, hn]
  · intro q hj
    refine ⟨?_, rfl⟩
    by_cases hq : q = 0 ∨ q = 1 <;>
      simp [Vibetools.maybe_coerce, hj, h1, h2, Vibetools.boolNudge,
        Vibetools.coerceStructured, hq]

/-- Witness for C10 at concrete numeric responses: "7" stays an int and
fails the bool match; "1.0" becomes `True`; "-0" (not a boolean literal)
parses to the integer 0 and becomes `False`. -/
theorem c10_numeric_bool_nudge_witness :
    Vibetools.maybe_coerce "7" (some (.cls .boolC)) = .ok (.int 7)
    ∧ Vibetools.is_match (.int 7) (some (.cls .boolC)) = .ok false
    ∧ Vibetools.maybe_coerce "1.0" (some (.cls .boolC)) = .ok (.bool true)
    ∧ Vibetools.maybe_coerce "-0" (some (.cls .boolC)) = .ok (.bool false) :=
  ⟨((c10_numeric_bool_nudge "7" (by decide) (by decide)).1 7 rfl).1,
   ((c10_numeric_bool_nudge "7" (by decide) (by decide)).1 7 rfl).2,
   ((c10_numeric_bool_nudge "1.0" (by decide) (by decide)).2 1 rfl).1,
   ((c10_numeric_bool_nudge "-0" (by decide) (by decide)).1 0 rfl).1⟩
